import Mathlib

/-!
Shallow embedding of `src/pybricksdev/cli/__init__.py`: the command-dispatch
core of the pybricksdev CLI.  Pure decision logic (connection resolution,
composite subcommand lookup, top-level dispatch, flash collaborator choice)
is embedded as Lean functions; the connect/operate/disconnect lifecycle of
`Run.run` and `Flash.run` is embedded as functions from the collaborator
call outcomes (`Except` values) to the trace of transport events and the
surfaced result, following Python's `try`/`finally` semantics.
-/

deriving instance DecidableEq for Except

namespace Pybricksdev

/-- Failure modes of the CLI core.  `invalidArgument` stands for the
`print` + `exit(1)` path for a missing `--name`, `invalidAddressFormat` for
the `ValueError("Device must be IP address.")` raise, `missingSubcommand`
for `parser.error` (which exits non-zero carrying the valid choice names),
and `unknownConnectionType` for the final `ValueError` branch of
`Run.run`. -/
inductive CliError where
  | invalidArgument (message : String)
  | invalidAddressFormat (message : String)
  | missingSubcommand (choices : List String)
  | unknownConnectionType (conntype : String)
  deriving DecidableEq, Repr

/-- ASCII decimal digit test, as used on the octet groups of an IPv4
literal. -/
def isAsciiDigit (c : Char) : Bool :=
  48 ≤ c.toNat && c.toNat ≤ 57

/-- Decimal value of a digit group. -/
def digitsVal (g : List Char) : Nat :=
  g.foldl (fun n c => 10 * n + (c.toNat - 48)) 0

/-- Split a character list on `.` separators, keeping empty groups, as
Python's `str.split(".")` does. -/
def splitOnDot : List Char → List (List Char)
  | [] => [[]]
  | c :: cs =>
    if c = '.' then [] :: splitOnDot cs
    else
      match splitOnDot cs with
      | [] => [[c]]
      | g :: gs => (c :: g) :: gs

/-- Modelled from the spec: the IPv4-literal test performed by the external
`validators.ip_address.ipv4` collaborator (`import validators`, used at
line 177).  A value passes iff it splits on dots into exactly four groups,
each a non-empty run of decimal digits whose value is below 256; no
hostname resolution is involved. -/
def ipv4 (value : String) : Bool :=
  let groups := splitOnDot value.toList
  groups.length == 4 &&
    groups.all fun g => !g.isEmpty && g.all isAsciiDigit && digitsVal g < 256

/-- The transport classes `Run.run` can instantiate. -/
inductive Hub where
  | ev3Connection
  | pybricksHub
  | usbRPCConnection
  | usbPUPConnection
  deriving DecidableEq, Repr

/-- A bound, not-yet-connected transport handle: either a hub paired with a
concrete device-or-address string, or (BLE) a hub whose address is obtained
from the `find_device` discovery collaborator applied to the optional
name. -/
inductive ResolvedConn where
  | direct (hub : Hub) (deviceOrAddress : String)
  | discover (hub : Hub) (name : Option String)
  deriving DecidableEq, Repr

/-- The parsed arguments of the `run` tool (`Run.add_parser`):
`conntype ∈ ble|usb|ssh`, the script argument, the optional `--name`, the
`--wait` choice (a string, `"True"` or `"False"`, default `"True"`), and
the inlining flags. -/
structure RunArgs where
  conntype : String
  script : String
  name : Option String
  wait : String
  inline : Bool
  importbase : Option String
  deriving DecidableEq, Repr

/-- Connection resolution of `Run.run` (lines 170-199): the `ssh` branch
requires `--name` and a literal IPv4 address; the `ble` branch defers to
discovery; `usb` with name `"lego"` selects the stock-firmware transport
with a fixed label; `usb` otherwise requires `--name`; anything else is an
unknown connection type. -/
def resolveConnection (args : RunArgs) : Except CliError ResolvedConn :=
  if args.conntype = "ssh" then
    match args.name with
    | none =>
      Except.error (CliError.invalidArgument "--name is required for SSH connections")
    | some n =>
      if ipv4 n then Except.ok (ResolvedConn.direct Hub.ev3Connection n)
      else Except.error (CliError.invalidAddressFormat "Device must be IP address.")
  else if args.conntype = "ble" then
    Except.ok (ResolvedConn.discover Hub.pybricksHub args.name)
  else if args.conntype = "usb" ∧ args.name = some "lego" then
    Except.ok (ResolvedConn.direct Hub.usbRPCConnection "LEGO Technic Large Hub in FS Mode")
  else if args.conntype = "usb" then
    match args.name with
    | none =>
      Except.error (CliError.invalidArgument "--name is required for USB connections")
    | some n => Except.ok (ResolvedConn.direct Hub.usbPUPConnection n)
  else
    Except.error (CliError.unknownConnectionType args.conntype)

/-- Transport lifecycle events of one session. -/
inductive Event where
  | connect
  | operation
  | disconnect
  deriving DecidableEq, Repr

/-- The session lifecycle of `Run.run` (lines 201-206):
`await hub.connect(...)` then `try: await hub.run(...) finally: await
hub.disconnect()`.  The function maps the outcomes of the three
collaborator calls to the event trace and the surfaced result, following
Python semantics: a connect failure propagates before the `try` is entered;
otherwise the operation and then the disconnect run, and an exception
raised inside `finally` replaces any pending exception of the `try`
body. -/
def runSession {E : Type} (connectR opR disR : Except E Unit) :
    List Event × Except E Unit :=
  match connectR with
  | Except.error e => ([Event.connect], Except.error e)
  | Except.ok _ =>
    match disR with
    | Except.error e2 =>
      ([Event.connect, Event.operation, Event.disconnect], Except.error e2)
    | Except.ok _ =>
      ([Event.connect, Event.operation, Event.disconnect], opR)

/-- The BLE-bootloader session of `Flash.run` (lines 236-241):
`await updater.connect(device)` then `await updater.flash(firmware,
metadata)`, with no `try`/`finally` and no disconnect call on any path. -/
def flashBleSession {E : Type} (connectR flashR : Except E Unit) :
    List Event × Except E Unit :=
  match connectR with
  | Except.error e => ([Event.connect], Except.error e)
  | Except.ok _ => ([Event.connect, Event.operation], flashR)

/-- The wait mode passed to the transport at line 204:
`args.wait == "True"`. -/
def waitMode (wait : String) : Bool :=
  wait == "True"

/-- Observable phases of the transport `run` operation. -/
inductive OpEvent where
  | programInitiated
  | completionAwaited
  deriving DecidableEq, Repr

/-- Modelled from the spec: the transport collaborator's
`run(script_path, wait)` operation (external to this file) initiates the
remote program and awaits its completion signal iff `wait` is true;
with `wait` false it returns right after initiating the program. -/
def hubRunEvents (wait : Bool) : List OpEvent :=
  if wait then [OpEvent.programInitiated, OpEvent.completionAwaited]
  else [OpEvent.programInitiated]

/-- The helper `_parse_script_arg` (lines 53-59), parameterised by the
filesystem test `os.path.exists` and the `save_script` collaborator: an
argument naming an existing file is used as the script path, otherwise the
argument is saved as an inline one-liner and the saved path is used. -/
def parseScriptArg (pathExists : String → Bool) (saveScript : String → String)
    (scriptArg : String) : String :=
  if pathExists scriptArg then scriptArg
  else saveScript scriptArg

/-- Modelled from the spec: the hub kinds of
`pybricksdev.ble.lwp3.bytecodes.HubKind` (imported at line 20); only
equality with `PRIME` is consulted by `Flash.run`. -/
inductive HubKind where
  | movehub
  | cityhub
  | technichub
  | prime
  | essentialhub
  deriving DecidableEq, Repr

/-- Modelled from the spec: the LWP3 bootloader service UUID imported at
line 19; only its identity matters to the embedded flash logic. -/
def LWP3_BOOTLOADER_SERVICE_UUID : String :=
  "00001625-1212-efde-1623-785feabcd123"

/-- Which flashing collaborator `Flash.run` drives: the vendor DFU path, or
the BLE bootloader path after discovering a device advertising the given
service. -/
inductive FlashMethod where
  | dfu
  | bleBootloader (serviceUuid : String)
  deriving DecidableEq, Repr

/-- Collaborator selection of `Flash.run` (lines 228-241): `flash_dfu` iff
the firmware metadata's device-id equals `HubKind.PRIME`, otherwise the
`BootloaderConnection` path with discovery filtered on
`LWP3_BOOTLOADER_SERVICE_UUID`. -/
def flashMethod (deviceId : HubKind) : FlashMethod :=
  if deviceId = HubKind.prime then FlashMethod.dfu
  else FlashMethod.bleBootloader LWP3_BOOTLOADER_SERVICE_UUID

/-- Composite-group child lookup as in `DFU.run` (lines 295-301) and
`LWP3.run` (lines 332-338): a selector value absent from the registered
choices (including the missing selector, Python `None`) is a
`parser.error` carrying the valid child names; a registered selector
returns the first child registered under it. -/
def resolveChild {α : Type} (g : List (String × α)) (s : Option String) :
    Except CliError α :=
  match s with
  | none => Except.error (CliError.missingSubcommand (g.map Prod.fst))
  | some n =>
    match g.find? fun p => p.1 == n with
    | some p => Except.ok p.2
    | none => Except.error (CliError.missingSubcommand (g.map Prod.fst))

/-- Resolution followed by execution of the selected child, as in
`return self.subparsers.choices[...].tool.run(args)`: on a resolution
failure the error is reported and nothing executes. -/
def compositeRun {α β : Type} (g : List (String × α)) (s : Option String)
    (exec : α → β) : Except CliError β :=
  match resolveChild g s with
  | Except.ok a => Except.ok (exec a)
  | Except.error e => Except.error e

/-- Identities of the leaf tools registered under composite groups. -/
inductive ToolId where
  | dfuBackup
  | dfuRestore
  | lwp3Repl
  deriving DecidableEq, Repr

/-- Children of the `dfu` group, registered in order in `DFU.add_parser`
(`for tool in DFUBackup(), DFURestore()`). -/
def dfuChoices : List (String × ToolId) :=
  [("backup", ToolId.dfuBackup), ("restore", ToolId.dfuRestore)]

/-- Children of the `lwp3` group (`for tool in (LWP3Repl(),)`). -/
def lwp3Choices : List (String × ToolId) :=
  [("repl", ToolId.lwp3Repl)]

/-- Top-level tool names, in registration order of `main`
(`for tool in Compile(), Run(), Flash(), DFU(), LWP3(), Udev()`). -/
def topLevelTools : List String :=
  ["compile", "run", "flash", "dfu", "lwp3", "udev"]

/-- The dispatch step of `main` (lines 387-390): with no tool designated,
`parser.error` reports the valid tool names and exits with status 2 before
anything executes (the empty event trace); otherwise the selected tool runs
under `asyncio.run`.  The result pairs the hardware-event trace with either
the error and its exit code or the tool's value. -/
def mainRun {β : Type} (tool : Option String) (execute : String → List Event × β) :
    List Event × Except (CliError × Nat) β :=
  match tool with
  | none => ([], Except.error (CliError.missingSubcommand topLevelTools, 2))
  | some t => ((execute t).1, Except.ok (execute t).2)

/-! Helper lemmas about first-match lookup in a registry whose child names
are unique. -/

/-- In a registry with pairwise-distinct names, first-match lookup of a
registered name returns exactly its registered pair. -/
theorem find_registered {α : Type} (g : List (String × α)) (n : String) (a : α)
    (hnd : (g.map Prod.fst).Nodup) (hmem : (n, a) ∈ g) :
    (g.find? fun p => p.1 == n) = some (n, a) := by
  induction g with
  | nil => cases hmem
  | cons hd tl ih =>
    simp only [List.map_cons, List.nodup_cons] at hnd
    rcases List.mem_cons.mp hmem with heq | htl
    · subst heq
      simp [List.find?]
    · have hne : hd.1 ≠ n := by
        intro h
        exact hnd.1 (h ▸ List.mem_map.mpr ⟨(n, a), htl, rfl⟩)
      have hbeq : (hd.1 == n) = false := beq_eq_false_iff_ne.mpr hne
      simp [List.find?, hbeq, ih hnd.2 htl]

/-- First-match lookup of a name registered nowhere returns nothing. -/
theorem find_unregistered {α : Type} (g : List (String × α)) (n : String)
    (hn : n ∉ g.map Prod.fst) :
    (g.find? fun p => p.1 == n) = none := by
  apply List.find?_eq_none.mpr
  intro p hp
  simp only [beq_iff_eq]
  intro h
  exact hn (List.mem_map.mpr ⟨p, hp, h⟩)

/-- Claim C1 (amended): in the run command's session (`Run.run`), after a
successful connect the disconnect call is made exactly once on every exit
path of the operation, normal or abnormal, and an operation failure still
surfaces as a failure; the flash command's BLE bootloader session
(`Flash.run`) however makes no disconnect call on any path, so the
guarantee does not extend to every connect-then-operate sequence. -/
theorem lifecycle_disconnect_discipline {E : Type}
    (opR disR connectR flashR : Except E Unit) :
    ((runSession (Except.ok ()) opR disR).1.count Event.disconnect = 1) ∧
    (∀ e, opR = Except.error e →
      ∃ e2, (runSession (Except.ok ()) opR disR).2 = Except.error e2) ∧
    ((flashBleSession connectR flashR).1.count Event.disconnect = 0) := by
  refine ⟨?_, ?_, ?_⟩
  · cases disR <;> rfl
  · intro e he
    cases disR with
    | error e2 => exact ⟨e2, rfl⟩
    | ok _ => exact ⟨e, by simp [runSession, he]⟩
  · cases connectR <;> rfl

/-- Claim C1 counterexample: in the flash command's BLE bootloader session
the operation fails after a successful connect, yet the trace holds zero
disconnect events, not the one the claim requires. -/
theorem flash_session_skips_disconnect_cex :
    (flashBleSession (Except.ok ()) (Except.error (0 : Nat))).2 = Except.error 0 ∧
    (flashBleSession (Except.ok ()) (Except.error (0 : Nat))).1.count Event.disconnect = 0 ∧
    (0 : Nat) ≠ 1 :=
  ⟨rfl, rfl, by decide⟩

/-- Claim C2 (amended): in a run-command session whose operation fails
after a successful connect, the surfaced failure is the operation's
original failure whenever disconnect succeeds, re-raised after the
disconnect completes; when disconnect itself also fails on that path, the
disconnect failure replaces (masks) the operation's failure, as Python's
`try`/`finally` dictates. -/
theorem operation_failure_surfaced {E : Type} (e e2 : E) :
    ((runSession (Except.ok ()) (Except.error e) (Except.ok ())).2 = Except.error e) ∧
    ((runSession (Except.ok ()) (Except.error e) (Except.ok ())).1.count Event.disconnect = 1) ∧
    ((runSession (Except.ok ()) (Except.error e) (Except.error e2)).2 = Except.error e2) :=
  ⟨rfl, rfl, rfl⟩

/-- Claim C2 counterexample: with the operation failing with error 0 and
the disconnect failing with error 1, the surfaced failure is the
disconnect's error 1, not the operation's error 0. -/
theorem disconnect_masks_operation_failure_cex :
    (runSession (Except.ok ()) (Except.error (0 : Nat)) (Except.error 1)).2 = Except.error 1 ∧
    (Except.error 1 : Except Nat Unit) ≠ Except.error 0 :=
  ⟨rfl, by decide⟩

/-- Claim C3: when the transport's connect call fails, the session
surfaces that failure unmodified, the trace holds the connect attempt
alone — neither the operation nor a disconnect is ever attempted, so the
handle never transitions past Bound. -/
theorem connect_failure_propagates {E : Type} (e : E) (opR disR : Except E Unit) :
    runSession (Except.error e) opR disR = ([Event.connect], Except.error e) ∧
    (runSession (Except.error e) opR disR).1.count Event.disconnect = 0 :=
  ⟨rfl, rfl⟩

/-- Claim C4: SSH connection resolution succeeds exactly on a present,
well-formed literal IPv4 identifier: a missing identifier fails with
`invalidArgument`, a present identifier that is not an IPv4 literal fails
with `invalidAddressFormat`, and resolution succeeds iff the identifier is
an IPv4 literal. -/
theorem ssh_resolution_requires_ipv4 (args : RunArgs) (hc : args.conntype = "ssh") :
    (args.name = none →
      resolveConnection args =
        Except.error (CliError.invalidArgument "--name is required for SSH connections")) ∧
    (∀ n, args.name = some n → ipv4 n = false →
      resolveConnection args =
        Except.error (CliError.invalidAddressFormat "Device must be IP address.")) ∧
    (∀ n, args.name = some n → ipv4 n = true →
      resolveConnection args = Except.ok (ResolvedConn.direct Hub.ev3Connection n)) ∧
    ((∃ r, resolveConnection args = Except.ok r) ↔
      ∃ n, args.name = some n ∧ ipv4 n = true) := by
  refine ⟨fun hn => ?_, fun n hn hv => ?_, fun n hn hv => ?_, ?_⟩
  · simp [resolveConnection, hc, hn]
  · simp [resolveConnection, hc, hn, hv]
  · simp [resolveConnection, hc, hn, hv]
  · constructor
    · rintro ⟨r, hr⟩
      cases hn : args.name with
      | none => simp [resolveConnection, hc, hn] at hr
      | some n =>
        refine ⟨n, rfl, ?_⟩
        cases hv : ipv4 n with
        | true => rfl
        | false => simp [resolveConnection, hc, hn, hv] at hr
    · rintro ⟨n, hn, hv⟩
      exact ⟨ResolvedConn.direct Hub.ev3Connection n, by simp [resolveConnection, hc, hn, hv]⟩

/-- Claim C4 witness: a literal IPv4 address resolves to the EV3 transport,
a hostname is rejected as a bad address format, and a missing name is
rejected as a missing argument. -/
theorem ssh_resolution_requires_ipv4_witness :
    resolveConnection ⟨"ssh", "s.py", some "192.168.1.2", "True", false, none⟩ =
      Except.ok (ResolvedConn.direct Hub.ev3Connection "192.168.1.2") ∧
    resolveConnection ⟨"ssh", "s.py", some "my-hub.local", "True", false, none⟩ =
      Except.error (CliError.invalidAddressFormat "Device must be IP address.") ∧
    resolveConnection ⟨"ssh", "s.py", none, "True", false, none⟩ =
      Except.error (CliError.invalidArgument "--name is required for SSH connections") :=
  ⟨(ssh_resolution_requires_ipv4 _ rfl).2.2.1 _ rfl (by decide),
   (ssh_resolution_requires_ipv4 _ rfl).2.1 _ rfl (by decide),
   (ssh_resolution_requires_ipv4 _ rfl).1 rfl⟩

/-- Claim C5: the `usb` connection type with identifier `"lego"` selects
the stock-firmware transport and the fixed display label, whatever the
other arguments hold, with no validation of a user identifier. -/
theorem usb_lego_selects_stock_firmware (args : RunArgs)
    (hc : args.conntype = "usb") (hn : args.name = some "lego") :
    resolveConnection args =
      Except.ok (ResolvedConn.direct Hub.usbRPCConnection "LEGO Technic Large Hub in FS Mode") := by
  simp [resolveConnection, hc, hn]

/-- Claim C5 witness: with wait disabled, inlining enabled and an import
base set, `usb` plus `--name lego` still resolves to the stock-firmware
transport and its fixed label. -/
theorem usb_lego_selects_stock_firmware_witness :
    resolveConnection ⟨"usb", "s.py", some "lego", "False", true, some "/base"⟩ =
      Except.ok (ResolvedConn.direct Hub.usbRPCConnection "LEGO Technic Large Hub in FS Mode") :=
  usb_lego_selects_stock_firmware _ rfl rfl

/-- Claim C6: in a composite group with uniquely named children, the
selector resolves to exactly the child registered under it; a missing or
unregistered selector fails with `missingSubcommand` carrying the group's
child names, and on that failure the composite dispatch never consults the
execution function. -/
theorem composite_child_resolution {α β : Type} (g : List (String × α))
    (s : Option String) (hnd : (g.map Prod.fst).Nodup) :
    (∀ n a, s = some n → (n, a) ∈ g → resolveChild g s = Except.ok a) ∧
    (∀ n, s = some n → n ∉ g.map Prod.fst →
      resolveChild g s = Except.error (CliError.missingSubcommand (g.map Prod.fst))) ∧
    (s = none →
      resolveChild g s = Except.error (CliError.missingSubcommand (g.map Prod.fst))) ∧
    (∀ (e1 e2 : α → β) n, s = some n → n ∉ g.map Prod.fst →
      compositeRun g s e1 = compositeRun g s e2) := by
  refine ⟨?_, ?_, ?_, ?_⟩
  · intro n a hs hmem
    subst hs
    simp [resolveChild, find_registered g n a hnd hmem]
  · intro n hs hn
    subst hs
    simp [resolveChild, find_unregistered g n hn]
  · intro hs
    subst hs
    rfl
  · intro e1 e2 n hs hn
    subst hs
    simp [compositeRun, resolveChild, find_unregistered g n hn]

/-- Claim C6 witness: `dfu restore` resolves to the restore tool, an
unregistered `lwp3` selector fails carrying `repl`, and a missing `dfu`
selector fails carrying `backup` and `restore`. -/
theorem composite_child_resolution_witness :
    resolveChild dfuChoices (some "restore") = Except.ok ToolId.dfuRestore ∧
    resolveChild lwp3Choices (some "flash") =
      Except.error (CliError.missingSubcommand ["repl"]) ∧
    resolveChild dfuChoices none =
      Except.error (CliError.missingSubcommand ["backup", "restore"]) :=
  ⟨(composite_child_resolution (β := Nat) dfuChoices (some "restore") (by decide)).1
      "restore" ToolId.dfuRestore rfl (by decide),
   (composite_child_resolution (β := Nat) lwp3Choices (some "flash") (by decide)).2.1
      "flash" rfl (by decide),
   (composite_child_resolution (β := Nat) dfuChoices none (by decide)).2.2.1 rfl⟩

/-- Claim C7: dispatching with no top-level tool yields a missing
subcommand error listing exactly compile, run, flash, dfu, lwp3 and udev,
with a non-zero exit status, an empty hardware-event trace and no tool
executed. -/
theorem main_no_tool_reports_choices {β : Type} (execute : String → List Event × β) :
    (mainRun none execute).1 = [] ∧
    ∃ c, 0 < c ∧
      (mainRun none execute).2 =
        Except.error
          (CliError.missingSubcommand ["compile", "run", "flash", "dfu", "lwp3", "udev"], c) :=
  ⟨rfl, 2, by decide, rfl⟩

/-- Claim C8: the session drives the transport's run operation in
await-completion mode iff the `--wait` flag equals `"True"`; with
`--wait=False` the operation returns right after initiating the remote
program, with no completion wait, and with `--wait=True` completion is
awaited. -/
theorem run_wait_flag_drives_completion (args : RunArgs) :
    (waitMode args.wait = true ↔ args.wait = "True") ∧
    (OpEvent.completionAwaited ∈ hubRunEvents (waitMode args.wait) ↔ args.wait = "True") ∧
    (args.wait = "False" →
      hubRunEvents (waitMode args.wait) = [OpEvent.programInitiated]) := by
  refine ⟨by simp [waitMode], ?_, fun h => by rw [h]; rfl⟩
  by_cases h : args.wait = "True"
  · rw [h]
    simp [hubRunEvents, show waitMode "True" = true from rfl]
  · have hw : waitMode args.wait = false := beq_eq_false_iff_ne.mpr h
    rw [hw]
    simp [hubRunEvents, h]

/-- Claim C9: a script argument naming an existing file is used directly
as the script path; otherwise the argument is passed to the
script-preparation collaborator and its returned path is used. -/
theorem script_arg_file_or_oneliner (pathExists : String → Bool)
    (saveScript : String → String) (s : String) :
    (pathExists s = true → parseScriptArg pathExists saveScript s = s) ∧
    (pathExists s = false → parseScriptArg pathExists saveScript s = saveScript s) := by
  constructor
  · intro h
    simp [parseScriptArg, h]
  · intro h
    simp [parseScriptArg, h]

/-- Claim C10: the flashing collaborator is selected by the firmware
metadata's device-id alone: the vendor DFU path is taken iff the device-id
is the PRIME hub kind, and every other kind takes the BLE bootloader path
after discovery filtered on the LWP3 bootloader service. -/
theorem flash_collaborator_by_device_id (d : HubKind) :
    (flashMethod d = FlashMethod.dfu ↔ d = HubKind.prime) ∧
    (d ≠ HubKind.prime →
      flashMethod d = FlashMethod.bleBootloader LWP3_BOOTLOADER_SERVICE_UUID) := by
  constructor
  · constructor
    · intro h
      by_contra hne
      simp [flashMethod, hne] at h
    · intro h
      simp [flashMethod, h]
  · intro h
    simp [flashMethod, h]

end Pybricksdev
